import Mathlib

/-!
Verification of the `inclusivekinematicfit` package against its design
specification.

The development shallowly embeds the numeric core of the package:

* `funclib.py` — pure formulas over the fixed 14-element fit parameter
  vector (modelled as `Fin 14 → ℝ`); machine floats are modelled by exact
  real arithmetic, `np.sqrt` by `Real.sqrt` (which returns `0` on negative
  arguments, standing in for the float `nan` that the spec declares out of
  numerical contract).
* `chi2functions.py` — the cost-function object, its constructor,
  `initial_params`, `constraints` and the SLSQP settings setter.  Python
  exceptions become an explicit `Except PyError` result.  Covariance
  matrices are modelled over `ℚ` (every float is a rational) so that
  singularity of `np.linalg.inv` is decidable.
* `covariance.py` — `number_of_off_diagonal_values` and
  `create_symmetric_matrix`, with a minimal ndarray model carrying a shape.
-/

/-! ### Basic Python-side modelling -/

/-- Errors raised by the package.  `valueError` models a plain Python
`ValueError` (the spec's *ConfigurationError*); the
`valueErrorWithCovarianceDiagnostic` constructor models the constructor
path that first prints the offending covariance matrix together with
`np.linalg.eigvals` of it and then raises
`ValueError("Given Covariance not invertible")` — the carried matrix is
exactly the printed diagnostic (its eigenvalues are a function of it);
`linAlgError` models an uncaught `np.linalg.LinAlgError`. -/
inductive PyError where
  | valueError (msg : String)
  | valueErrorWithCovarianceDiagnostic (msg : String)
      (covariance : Matrix (Fin 4) (Fin 4) ℚ)
  | linAlgError
  deriving DecidableEq

/-- The runtime type tags relevant to the SLSQP settings schema, as
compared by Python's `type(value)` (note `bool` and `int` are distinct
for exact `type` equality). -/
inductive PyType where
  | float
  | bool
  | int
  | str
  deriving DecidableEq

/-- A dynamically typed Python value, restricted to the types occurring
in settings mappings. -/
inductive PyValue where
  | float (q : ℚ)
  | bool (b : Bool)
  | int (n : ℤ)
  | str (s : String)
  deriving DecidableEq

/-- `type(v)` for a `PyValue`. -/
def PyValue.typeOf : PyValue → PyType
  | .float _ => .float
  | .bool _ => .bool
  | .int _ => .int
  | .str _ => .str

/-! ### funclib.py -/

/-- `AVG_B_MASS = 5.279` (GeV), `funclib.py`. -/
noncomputable def AVG_B_MASS : ℝ := 5.279

/-- `_x_mom_function`: `x[0] + x[4] + x[8] + x[11] - beam_momentum[0]`. -/
noncomputable def _x_mom_function (x : Fin 14 → ℝ) (beam_momentum : Fin 4 → ℝ) : ℝ :=
  x 0 + x 4 + x 8 + x 11 - beam_momentum 0

/-- `_y_mom_function`: `x[1] + x[5] + x[9] + x[12] - beam_momentum[1]`. -/
noncomputable def _y_mom_function (x : Fin 14 → ℝ) (beam_momentum : Fin 4 → ℝ) : ℝ :=
  x 1 + x 5 + x 9 + x 12 - beam_momentum 1

/-- `_z_mom_function`: `x[2] + x[6] + x[10] + x[13] - beam_momentum[2]`. -/
noncomputable def _z_mom_function (x : Fin 14 → ℝ) (beam_momentum : Fin 4 → ℝ) : ℝ :=
  x 2 + x 6 + x 10 + x 13 - beam_momentum 2

/-- `_lepton_energy`: `np.sqrt(np.sum(x[8:11] ** 2) + lepton_mass ** 2)`. -/
noncomputable def _lepton_energy (x : Fin 14 → ℝ) (lepton_mass : ℝ) : ℝ :=
  Real.sqrt ((x 8) ^ 2 + (x 9) ^ 2 + (x 10) ^ 2 + lepton_mass ^ 2)

/-- `_neutrino_energy`: `np.sqrt(np.sum(x[11:] ** 2))`. -/
noncomputable def _neutrino_energy (x : Fin 14 → ℝ) : ℝ :=
  Real.sqrt ((x 11) ^ 2 + (x 12) ^ 2 + (x 13) ^ 2)

/-- `_E_function`:
`x[3] + x[7] + _lepton_energy(x, lepton_mass) + _neutrino_energy(x) - beam_momentum[3]`. -/
noncomputable def _E_function (x : Fin 14 → ℝ) (beam_momentum : Fin 4 → ℝ)
    (lepton_mass : ℝ) : ℝ :=
  x 3 + x 7 + _lepton_energy x lepton_mass + _neutrino_energy x - beam_momentum 3

/-- `_tag_mass_sq`: `x[3] ** 2 - np.sum(x[0:3] ** 2)`. -/
noncomputable def _tag_mass_sq (x : Fin 14 → ℝ) : ℝ :=
  (x 3) ^ 2 - ((x 0) ^ 2 + (x 1) ^ 2 + (x 2) ^ 2)

/-- `_sig_x_mom`: `x[4] + x[8] + x[11]`. -/
noncomputable def _sig_x_mom (x : Fin 14 → ℝ) : ℝ := x 4 + x 8 + x 11

/-- `_sig_y_mom`: `x[5] + x[9] + x[12]`. -/
noncomputable def _sig_y_mom (x : Fin 14 → ℝ) : ℝ := x 5 + x 9 + x 12

/-- `_sig_z_mom`: `x[6] + x[10] + x[13]`. -/
noncomputable def _sig_z_mom (x : Fin 14 → ℝ) : ℝ := x 6 + x 10 + x 13

/-- `_sig_mass_sq`: invariant mass squared of the signal side system. -/
noncomputable def _sig_mass_sq (x : Fin 14 → ℝ) (lepton_mass : ℝ) : ℝ :=
  (x 7 + _lepton_energy x lepton_mass + _neutrino_energy x) ^ 2
    - (_sig_x_mom x) ^ 2 - (_sig_y_mom x) ^ 2 - (_sig_z_mom x) ^ 2

/-- `_eq_mass_function`: `np.sqrt(_tag_mass_sq(x)) - np.sqrt(_sig_mass_sq(x, lepton_mass))`. -/
noncomputable def _eq_mass_function (x : Fin 14 → ℝ) (lepton_mass : ℝ) : ℝ :=
  Real.sqrt (_tag_mass_sq x) - Real.sqrt (_sig_mass_sq x lepton_mass)

/-- `_tag_mass_function`: `np.sqrt(_tag_mass_sq(x)) - AVG_B_MASS`. -/
noncomputable def _tag_mass_function (x : Fin 14 → ℝ) : ℝ :=
  Real.sqrt (_tag_mass_sq x) - AVG_B_MASS

/-- `_sig_mass_function`: `np.sqrt(_sig_mass_sq(x, lepton_mass)) - AVG_B_MASS`. -/
noncomputable def _sig_mass_function (x : Fin 14 → ℝ) (lepton_mass : ℝ) : ℝ :=
  Real.sqrt (_sig_mass_sq x lepton_mass) - AVG_B_MASS

/-- `_x_mass_function`: `x[7] ** 2 - np.sum(x[4:7] ** 2)`. -/
noncomputable def _x_mass_function (x : Fin 14 → ℝ) : ℝ :=
  (x 7) ^ 2 - ((x 4) ^ 2 + (x 5) ^ 2 + (x 6) ^ 2)

/-- The slice `x[:4]` of the parameter array. -/
noncomputable def tagSlice (x : Fin 14 → ℝ) : Fin 4 → ℝ :=
  fun i => x ⟨i.val, by have := i.isLt; omega⟩

/-- The slice `x[4:8]` of the parameter array. -/
noncomputable def xSysSlice (x : Fin 14 → ℝ) : Fin 4 → ℝ :=
  fun i => x ⟨i.val + 4, by have := i.isLt; omega⟩

/-- The slice `x[8:11]` of the parameter array. -/
noncomputable def lepSlice (x : Fin 14 → ℝ) : Fin 3 → ℝ :=
  fun i => x ⟨i.val + 8, by have := i.isLt; omega⟩

/-- The slice `x[11:14]` of the parameter array. -/
noncomputable def neutrinoSlice (x : Fin 14 → ℝ) : Fin 3 → ℝ :=
  fun i => x ⟨i.val + 11, by have := i.isLt; omega⟩

/-- The quadratic form `r @ M @ r` built with numpy's `@` products. -/
noncomputable def quadratic_form {n : ℕ} (M : Matrix (Fin n) (Fin n) ℝ)
    (r : Fin n → ℝ) : ℝ :=
  Matrix.dotProduct r (M.mulVec r)

/-- `_objective_function`: the chi-square sum of the tag-side, lepton and
X-system residual quadratic forms (the residual of each slice against its
measured value, weighted by the corresponding inverse covariance).  The
`lep_mass` argument is accepted, as in the source, but unused. -/
noncomputable def _objective_function (x : Fin 14 → ℝ)
    (tag_icov : Matrix (Fin 4) (Fin 4) ℝ) (lep_icov : Matrix (Fin 3) (Fin 3) ℝ)
    (x_icov : Matrix (Fin 4) (Fin 4) ℝ) (tag_meas : Fin 4 → ℝ)
    (lep_meas : Fin 3 → ℝ) (x_meas : Fin 4 → ℝ) (lep_mass : ℝ) : ℝ :=
  let tag_side_four_momentum := tagSlice x
  let x_system_four_momentum := xSysSlice x
  let lepton_three_momentum := lepSlice x
  let tag_side_residuals := fun i => tag_side_four_momentum i - tag_meas i
  let tag_side_chi_square := quadratic_form tag_icov tag_side_residuals
  let lep_residuals := fun i => lepton_three_momentum i - lep_meas i
  let lepton_chi_square := quadratic_form lep_icov lep_residuals
  let x_system_residuals := fun i => x_system_four_momentum i - x_meas i
  let x_system_chi_square := quadratic_form x_icov x_system_residuals
  tag_side_chi_square + lepton_chi_square + x_system_chi_square

/-! ### utility.py records -/

/-- `MassiveParticleKinematicInfo(covariance_matrix, four_momentum)`:
a measured four-momentum (a numpy array of a priori unchecked length,
modelled as a list) with a 4×4 covariance matrix. -/
structure MassiveParticleKinematicInfo where
  covariance_matrix : Matrix (Fin 4) (Fin 4) ℚ
  four_momentum : List ℝ

/-- `MassConstrainedParticleKinematicInfo(covariance_matrix, three_momentum, mass)`. -/
structure MassConstrainedParticleKinematicInfo where
  covariance_matrix : Matrix (Fin 3) (Fin 3) ℚ
  three_momentum : List ℝ
  mass : ℝ

/-- `MasslessParticleKinematicInfo(three_momentum)`. -/
structure MasslessParticleKinematicInfo where
  three_momentum : List ℝ

/-! ### chi2functions.py -/

/-- Model of `np.linalg.inv` on an exact rational matrix: raises
`LinAlgError` precisely on a singular input, otherwise returns the
inverse `det⁻¹ • adjugate`. -/
def np_linalg_inv {n : ℕ} (M : Matrix (Fin n) (Fin n) ℚ) :
    Except PyError (Matrix (Fin n) (Fin n) ℚ) :=
  if M.det = 0 then .error .linAlgError else .ok (M.det⁻¹ • M.adjugate)

/-- The scipy constraint dict `"type"` tag: `"eq"` or `"ineq"`. -/
inductive ConstraintType where
  | eq
  | ineq
  deriving DecidableEq

/-- The constraint methods of `DefaultKinematicFitCostFunction`.  The
`constraints` property stores *bound methods* in its dicts; we model a
method reference by its name and give the semantics separately by
`ConstraintName.eval` below. -/
inductive ConstraintName where
  | x_mom_cons
  | y_mom_cons
  | z_mom_cons
  | E_cons
  | eq_mass_cons
  | tag_mass_cons
  | sig_mass_cons
  | x_mass_cons
  deriving DecidableEq

/-- One scipy constraint dict `{"type": ..., "fun": ...}`. -/
structure SlsqpConstraint where
  ctype : ConstraintType
  cfun : ConstraintName
  deriving DecidableEq

/-- `n_free_params = 11` (class attribute). -/
def n_free_params : ℕ := 11

/-- `n_constrained_params = 3` (class attribute). -/
def n_constrained_params : ℕ := 3

/-- `n_fit_params = n_free_params + n_constrained_params`. -/
def n_fit_params : ℕ := n_free_params + n_constrained_params

/-- The state assembled by `DefaultKinematicFitCostFunction.__init__`.
Measured momenta are numpy arrays of a priori unchecked length (lists);
covariances and their cached inverses are exact rational matrices. -/
structure DefaultKinematicFitCostFunction where
  tag_side_measured_momentum : List ℝ
  tag_side_cov : Matrix (Fin 4) (Fin 4) ℚ
  tag_side_inv_cov : Matrix (Fin 4) (Fin 4) ℚ
  lepton_measured_three_momentum : List ℝ
  lepton_mass : ℝ
  lepton_cov : Matrix (Fin 3) (Fin 3) ℚ
  lepton_inv_cov : Matrix (Fin 3) (Fin 3) ℚ
  x_system_measured_momentum : List ℝ
  x_system_cov : Matrix (Fin 4) (Fin 4) ℚ
  x_system_inv_cov : Matrix (Fin 4) (Fin 4) ℚ
  neutrino_measured_three_momentum : List ℝ
  beam_four_momentum : Fin 4 → ℝ

namespace DefaultKinematicFitCostFunction

/-- `__init__`: stores the measured data and caches the inverse
covariances.  Only the tag-side inversion is wrapped in `try/except`:
on failure it prints the covariance and its eigenvalues and raises
`ValueError("Given Covariance not invertible")`; a singular lepton or
X-system covariance lets the bare `np.linalg.LinAlgError` escape. -/
def init (tag_side_info : MassiveParticleKinematicInfo)
    (lepton_info : MassConstrainedParticleKinematicInfo)
    (x_system_info : MassiveParticleKinematicInfo)
    (missing_mom_info : MasslessParticleKinematicInfo)
    (beam_four_momentum : Fin 4 → ℝ) :
    Except PyError DefaultKinematicFitCostFunction :=
  match np_linalg_inv tag_side_info.covariance_matrix with
  | .error _ =>
      .error (.valueErrorWithCovarianceDiagnostic "Given Covariance not invertible"
        tag_side_info.covariance_matrix)
  | .ok tag_side_inv_cov =>
    match np_linalg_inv lepton_info.covariance_matrix with
    | .error e => .error e
    | .ok lepton_inv_cov =>
      match np_linalg_inv x_system_info.covariance_matrix with
      | .error e => .error e
      | .ok x_system_inv_cov =>
          .ok { tag_side_measured_momentum := tag_side_info.four_momentum
                tag_side_cov := tag_side_info.covariance_matrix
                tag_side_inv_cov := tag_side_inv_cov
                lepton_measured_three_momentum := lepton_info.three_momentum
                lepton_mass := lepton_info.mass
                lepton_cov := lepton_info.covariance_matrix
                lepton_inv_cov := lepton_inv_cov
                x_system_measured_momentum := x_system_info.four_momentum
                x_system_cov := x_system_info.covariance_matrix
                x_system_inv_cov := x_system_inv_cov
                neutrino_measured_three_momentum := missing_mom_info.three_momentum
                beam_four_momentum := beam_four_momentum }

/-- View a stored numpy array as a fixed-size vector (indexing; in-contract
inputs have exactly the expected length). -/
noncomputable def listToVec (l : List ℝ) (n : ℕ) : Fin n → ℝ := fun i => l.getD i.val 0

/-- View a rational matrix as a real one. -/
noncomputable def matR {n : ℕ} (M : Matrix (Fin n) (Fin n) ℚ) : Matrix (Fin n) (Fin n) ℝ :=
  M.map (fun q => (q : ℝ))

/-- `__call__(x)`: delegates to `funclib._objective_function` with the
cached inverse covariances and measured values. -/
noncomputable def call (cf : DefaultKinematicFitCostFunction) (x : Fin 14 → ℝ) : ℝ :=
  _objective_function x
    (matR cf.tag_side_inv_cov) (matR cf.lepton_inv_cov) (matR cf.x_system_inv_cov)
    (listToVec cf.tag_side_measured_momentum 4)
    (listToVec cf.lepton_measured_three_momentum 3)
    (listToVec cf.x_system_measured_momentum 4)
    cf.lepton_mass

/-- The semantics of each constraint method: each delegates to the
corresponding `funclib` function with the stored beam four-momentum and
lepton mass. -/
noncomputable def ConstraintName.eval (c : ConstraintName)
    (cf : DefaultKinematicFitCostFunction) (x : Fin 14 → ℝ) : ℝ :=
  match c with
  | .x_mom_cons => _x_mom_function x cf.beam_four_momentum
  | .y_mom_cons => _y_mom_function x cf.beam_four_momentum
  | .z_mom_cons => _z_mom_function x cf.beam_four_momentum
  | .E_cons => _E_function x cf.beam_four_momentum cf.lepton_mass
  | .eq_mass_cons => _eq_mass_function x cf.lepton_mass
  | .tag_mass_cons => _tag_mass_function x
  | .sig_mass_cons => _sig_mass_function x cf.lepton_mass
  | .x_mass_cons => _x_mass_function x

/-- `initial_params` property: concatenates the measured tag-side,
X-system, lepton and missing momenta and raises `ValueError` when the
assembled size differs from `n_fit_params`. -/
def initial_params (cf : DefaultKinematicFitCostFunction) : Except PyError (List ℝ) :=
  let ps := cf.tag_side_measured_momentum ++ cf.x_system_measured_momentum
      ++ cf.lepton_measured_three_momentum ++ cf.neutrino_measured_three_momentum
  if ps.length ≠ n_fit_params then
    .error (.valueError "Number of initial parameters not compatible with number of fit paramters! Check initialization of the cost function!")
  else
    .ok ps

/-- `constraints` property: the active constraint dicts in source order.
The `tag_mass_cons` and `sig_mass_cons` entries are commented out in the
source and hence absent. -/
def constraints (cf : DefaultKinematicFitCostFunction) : List SlsqpConstraint :=
  [ { ctype := .eq, cfun := .x_mom_cons }
  , { ctype := .eq, cfun := .y_mom_cons }
  , { ctype := .eq, cfun := .z_mom_cons }
  , { ctype := .eq, cfun := .E_cons }
  , { ctype := .eq, cfun := .eq_mass_cons }
  , { ctype := .ineq, cfun := .x_mass_cons } ]

end DefaultKinematicFitCostFunction

/-! ### SLSQP settings (`SLSQPKinematicFitCostFunction`) -/

/-- The fixed schema `valid_slsqp_settings` of the settings setter:
`{"ftol": float, "eps": float, "disp": bool, "maxiter": int}`. -/
def valid_slsqp_settings (key : String) : Option PyType :=
  if key = "ftol" then some .float
  else if key = "eps" then some .float
  else if key = "disp" then some .bool
  else if key = "maxiter" then some .int
  else none

/-- The default settings installed by `SLSQPKinematicFitCostFunction.__init__`:
`{"ftol": 1e-9, "disp": False, "maxiter": 500}`. -/
def default_scipy_slsqp_settings : List (String × PyValue) :=
  [("ftol", .float (1 / 1000000000)), ("disp", .bool false), ("maxiter", .int 500)]

/-- The validation loop of the `scipy_slsqp_settings` setter: walks the
supplied mapping in order; an unknown key raises
`ValueError("Unknown SLSQP setting <key>.")` (the `KeyError` path), a
known key whose value has the wrong exact runtime type raises a
`ValueError` naming the key and the expected type. -/
def validate_slsqp_settings : List (String × PyValue) → Except PyError Unit
  | [] => .ok ()
  | (slsqp_setting, setting) :: rest =>
    match valid_slsqp_settings slsqp_setting with
    | none => .error (.valueError ("Unknown SLSQP setting " ++ slsqp_setting ++ "."))
    | some valid_setting_type =>
      if setting.typeOf ≠ valid_setting_type then
        .error (.valueError ("SLSQP setting " ++ slsqp_setting ++ " has to be of type"))
      else
        validate_slsqp_settings rest

/-- The `scipy_slsqp_settings` setter: validates every supplied entry and
only then stores the new mapping wholesale. -/
def set_scipy_slsqp_settings (new_settings : List (String × PyValue)) :
    Except PyError (List (String × PyValue)) :=
  match validate_slsqp_settings new_settings with
  | .error e => .error e
  | .ok _ => .ok new_settings

/-- The stored `_scipy_slsqp_settings` after an assignment attempt: the
new mapping if validation passed, the previously stored mapping if the
setter raised (the assignment in the source happens only after the whole
validation loop). -/
def scipy_slsqp_settings_after (current new_settings : List (String × PyValue)) :
    List (String × PyValue) :=
  match validate_slsqp_settings new_settings with
  | .error _ => current
  | .ok _ => new_settings

/-! ### covariance.py -/

/-- A minimal numpy ndarray model: a shape together with flat rational
data.  A freshly built 1-d array over a list `l` is `⟨[l.length], l⟩`. -/
structure NpArr where
  shape : List ℕ
  data : List ℚ

/-- `len(a.shape)`. -/
def NpArr.ndim (a : NpArr) : ℕ := a.shape.length

/-- `a.size` (the product of the shape). -/
def NpArr.size (a : NpArr) : ℕ := a.shape.prod

/-- A well-formed one-dimensional array over a data list. -/
def NpArr.vec (l : List ℚ) : NpArr := ⟨[l.length], l⟩

/-- `number_of_off_diagonal_values(dimension)`:
`((dimension * dimension) - dimension) // 2`. -/
def number_of_off_diagonal_values (dimension : ℕ) : ℕ :=
  (dimension * dimension - dimension) / 2

/-- The position of `(i, j)`, `i < j`, in the row-major enumeration
`np.triu_indices(d, k=1)` of the strict upper triangle. -/
def triu_index (d i j : ℕ) : ℕ := i * (2 * d - i - 1) / 2 + (j - i - 1)

/-- `create_symmetric_matrix(dimension, diag_values, off_diag_values)`:
checks that both inputs are one-dimensional and of the matching lengths,
then fills an all-zero matrix with the diagonal values on the diagonal
and the off-diagonal values symmetrically on both strict triangles in
`np.triu_indices` order. -/
def create_symmetric_matrix (dimension : ℕ) (diag_values off_diag_values : NpArr) :
    Except PyError (Matrix (Fin dimension) (Fin dimension) ℚ) :=
  if diag_values.ndim ≠ 1 ∨ off_diag_values.ndim ≠ 1 then
    .error (.valueError "Shape of given matrix elements has to be 1-dimensional")
  else if diag_values.size ≠ dimension then
    .error (.valueError "Number of given diagonal values not compatible with matrix dimension")
  else if off_diag_values.size ≠ number_of_off_diagonal_values dimension then
    .error (.valueError "Number of given off diagonal values not compatible with matrix dimension")
  else
    .ok (fun i j =>
      if i = j then diag_values.data.getD i.val 0
      else if i.val < j.val then off_diag_values.data.getD (triu_index dimension i.val j.val) 0
      else off_diag_values.data.getD (triu_index dimension j.val i.val) 0)

/-- Replace the neutrino slice `x[11:14]` of a parameter vector by `v`,
leaving the eleven measured entries unchanged. -/
noncomputable def overrideNeutrino (x : Fin 14 → ℝ) (v : Fin 3 → ℝ) : Fin 14 → ℝ :=
  fun i => if h : i.val < 11 then x i else v ⟨i.val - 11, by have := i.isLt; omega⟩

/-- Spec-side reading of the energy-conservation residual in which *every*
energy — including the tag-side and X-system ones — is recomputed from the
corresponding three-momentum and a mass via `E = sqrt(|p|² + m²)` (the
claim leaves the tag-side and X-system masses unnamed, so they are
parameters here).  Stated from the claim's words for comparison with
`_E_function`. -/
noncomputable def E_function_spec_recomputed (m_tag m_X : ℝ) (x : Fin 14 → ℝ)
    (beam_momentum : Fin 4 → ℝ) (lepton_mass : ℝ) : ℝ :=
  Real.sqrt ((x 0) ^ 2 + (x 1) ^ 2 + (x 2) ^ 2 + m_tag ^ 2)
    + Real.sqrt ((x 4) ^ 2 + (x 5) ^ 2 + (x 6) ^ 2 + m_X ^ 2)
    + Real.sqrt ((x 8) ^ 2 + (x 9) ^ 2 + (x 10) ^ 2 + lepton_mass ^ 2)
    + Real.sqrt ((x 11) ^ 2 + (x 12) ^ 2 + (x 13) ^ 2)
    - beam_momentum 3

/-- A concrete parameter vector meeting the literally-claimed "true
momentum" conditions (momentum/energy conservation; tag-side and X-system
energy entries consistent with their three-momenta and the B-meson mass):
tag side and X system at rest with energy `AVG_B_MASS`, lepton momentum
`(3, 0, 0)` with mass 4, neutrino momentum `(-3, 0, 0)`. -/
noncomputable def xTrueClaim : Fin 14 → ℝ :=
  fun i => if i = 3 ∨ i = 7 then AVG_B_MASS
    else if i = 8 then 3 else if i = 11 then -3 else 0

/-- The beam four-momentum balancing `xTrueClaim`. -/
noncomputable def beamTrueClaim : Fin 4 → ℝ :=
  fun i => if i = 3 then 2 * AVG_B_MASS + 8 else 0

/-- A cost function with lepton mass 4 and beam `beamTrueClaim`. -/
noncomputable def cfTrueClaim : DefaultKinematicFitCostFunction :=
  ⟨[], 1, 1, [], 4, 1, 1, [], 1, 1, [], beamTrueClaim⟩

/-- A concrete exactly-conserving parameter vector with both B mesons at
rest (all three-momenta zero, both energy entries `AVG_B_MASS`, massless
lepton). -/
noncomputable def xTrueExact : Fin 14 → ℝ :=
  fun i => if i = 3 ∨ i = 7 then AVG_B_MASS else 0

/-- The beam four-momentum balancing `xTrueExact`. -/
noncomputable def beamTrueExact : Fin 4 → ℝ :=
  fun i => if i = 3 then 2 * AVG_B_MASS else 0

/-- A cost function with massless lepton and beam `beamTrueExact`. -/
noncomputable def cfTrueExact : DefaultKinematicFitCostFunction :=
  ⟨[], 1, 1, [], 0, 1, 1, [], 1, 1, [], beamTrueExact⟩

/-! ### Helper lemmas -/

theorem quadratic_form_sub_comm {n : ℕ} (M : Matrix (Fin n) (Fin n) ℝ)
    (v w : Fin n → ℝ) :
    quadratic_form M (fun i => v i - w i) = quadratic_form M (fun i => w i - v i) := by
  have h : (fun i => v i - w i) = -(fun i => w i - v i) := by
    funext i
    simp [neg_sub]
  rw [h]
  unfold quadratic_form
  rw [Matrix.mulVec_neg, Matrix.dotProduct_neg, Matrix.neg_dotProduct, neg_neg]

theorem tagSlice_overrideNeutrino (x : Fin 14 → ℝ) (v : Fin 3 → ℝ) :
    tagSlice (overrideNeutrino x v) = tagSlice x := by
  funext i
  have hi := i.isLt
  simp only [tagSlice, overrideNeutrino]
  rw [dif_pos (by omega)]

theorem xSysSlice_overrideNeutrino (x : Fin 14 → ℝ) (v : Fin 3 → ℝ) :
    xSysSlice (overrideNeutrino x v) = xSysSlice x := by
  funext i
  have hi := i.isLt
  simp only [xSysSlice, overrideNeutrino]
  rw [dif_pos (by omega)]

theorem lepSlice_overrideNeutrino (x : Fin 14 → ℝ) (v : Fin 3 → ℝ) :
    lepSlice (overrideNeutrino x v) = lepSlice x := by
  funext i
  have hi := i.isLt
  simp only [lepSlice, overrideNeutrino]
  rw [dif_pos (by omega)]

/-! ### C1 -/

/-- C1: for every 14-element parameter vector, calling the cost-function
object returns exactly the sum of the three quadratic forms
`(measured − x_slice)ᵀ · Σ⁻¹ · (measured − x_slice)` for the tag side
(`x[0:4]`), the lepton (`x[8:11]`) and the X system (`x[4:8]`); the
neutrino slice `x[11:14]` contributes no term (replacing it changes
nothing). -/
theorem objective_evaluates_to_measured_chi_square
    (cf : DefaultKinematicFitCostFunction) (x : Fin 14 → ℝ) :
    cf.call x =
      quadratic_form (DefaultKinematicFitCostFunction.matR cf.tag_side_inv_cov)
        (fun i => DefaultKinematicFitCostFunction.listToVec cf.tag_side_measured_momentum 4 i
          - tagSlice x i)
      + quadratic_form (DefaultKinematicFitCostFunction.matR cf.lepton_inv_cov)
        (fun i => DefaultKinematicFitCostFunction.listToVec cf.lepton_measured_three_momentum 3 i
          - lepSlice x i)
      + quadratic_form (DefaultKinematicFitCostFunction.matR cf.x_system_inv_cov)
        (fun i => DefaultKinematicFitCostFunction.listToVec cf.x_system_measured_momentum 4 i
          - xSysSlice x i)
    ∧ ∀ v : Fin 3 → ℝ, cf.call (overrideNeutrino x v) = cf.call x := by
  constructor
  · simp only [DefaultKinematicFitCostFunction.call, _objective_function]
    rw [quadratic_form_sub_comm (DefaultKinematicFitCostFunction.matR cf.tag_side_inv_cov)
        (tagSlice x)]
    rw [quadratic_form_sub_comm (DefaultKinematicFitCostFunction.matR cf.lepton_inv_cov)
        (lepSlice x)]
    rw [quadratic_form_sub_comm (DefaultKinematicFitCostFunction.matR cf.x_system_inv_cov)
        (xSysSlice x)]
  · intro v
    simp only [DefaultKinematicFitCostFunction.call, _objective_function,
      tagSlice_overrideNeutrino, xSysSlice_overrideNeutrino, lepSlice_overrideNeutrino]

/-! ### C2 -/

/-- C2, counterexample: the energy-conservation residual is *not* of the
claimed shape in which the tag-side and X-system energies are also
recomputed from three-momentum and mass via `E = sqrt(|p|² + m²)`: no
choice of tag-side and X-system masses makes `_E_function` agree with
that shape, because `_E_function` depends on the energy entry `x[3]`
while the recomputed form does not (exhibited at the all-zero vector and
at the vector whose only nonzero entry is `x[3] = 1`). -/
theorem E_residual_not_all_energies_recomputed :
    ¬ ∃ m_tag m_X : ℝ, ∀ (x : Fin 14 → ℝ) (beam : Fin 4 → ℝ) (lepton_mass : ℝ),
        _E_function x beam lepton_mass = E_function_spec_recomputed m_tag m_X x beam lepton_mass := by
  rintro ⟨m_tag, m_X, h⟩
  have h0 := h (fun _ => 0) (fun _ => 0) 0
  have h1 := h (fun i => if i = 3 then 1 else 0) (fun _ => 0) 0
  simp only [_E_function, _lepton_energy, _neutrino_energy,
    E_function_spec_recomputed] at h0 h1
  simp only [Fin.reduceEq, if_false, if_true, reduceIte] at h0 h1
  norm_num [Real.sqrt_zero] at h0 h1
  linarith

/-- C2, amended: the energy-conservation residual equals the tag-side
energy entry `x[3]` plus the X-system energy entry `x[7]` (both taken
directly from the parameter vector, not recomputed) plus the lepton and
neutrino energies, each of the latter recomputed from its three-momentum
and mass via `E = sqrt(|p|² + m²)` (the neutrino mass being zero), minus
the beam energy. -/
theorem E_residual_formula (x : Fin 14 → ℝ) (beam : Fin 4 → ℝ) (lepton_mass : ℝ) :
    _E_function x beam lepton_mass =
      x 3 + x 7
        + Real.sqrt ((x 8) ^ 2 + (x 9) ^ 2 + (x 10) ^ 2 + lepton_mass ^ 2)
        + Real.sqrt ((x 11) ^ 2 + (x 12) ^ 2 + (x 13) ^ 2 + 0 ^ 2)
        - beam 3 := by
  simp only [_E_function, _lepton_energy, _neutrino_energy]
  norm_num

/-! ### C3 -/

theorem np_linalg_inv_singular {n : ℕ} (M : Matrix (Fin n) (Fin n) ℚ)
    (h : M.det = 0) : np_linalg_inv M = .error .linAlgError := by
  simp [np_linalg_inv, h]

theorem np_linalg_inv_invertible {n : ℕ} (M : Matrix (Fin n) (Fin n) ℚ)
    (h : M.det ≠ 0) : np_linalg_inv M = .ok (M.det⁻¹ • M.adjugate) := by
  simp [np_linalg_inv, h]

/-- C3, counterexample: constructing the cost function with an invertible
tag-side covariance but a singular (all-zero) lepton covariance does not
fail with the `ValueError` carrying the covariance/eigenvalue diagnostic:
the bare `np.linalg.LinAlgError` escapes instead, because only the
tag-side inversion is wrapped in `try/except`. -/
theorem singular_lepton_covariance_raises_bare_linalg_error :
    DefaultKinematicFitCostFunction.init ⟨1, []⟩ ⟨0, [], 0⟩ ⟨1, []⟩ ⟨[]⟩ (fun _ => 0)
      = .error .linAlgError
    ∧ ¬ ∃ (msg : String) (cov : Matrix (Fin 4) (Fin 4) ℚ),
        DefaultKinematicFitCostFunction.init ⟨1, []⟩ ⟨0, [], 0⟩ ⟨1, []⟩ ⟨[]⟩ (fun _ => 0)
          = .error (.valueErrorWithCovarianceDiagnostic msg cov) := by
  have h1 : (1 : Matrix (Fin 4) (Fin 4) ℚ).det ≠ 0 := by
    rw [Matrix.det_one]
    norm_num
  have h0 : (0 : Matrix (Fin 3) (Fin 3) ℚ).det = 0 := Matrix.det_zero ⟨0⟩
  have hinit : DefaultKinematicFitCostFunction.init ⟨1, []⟩ ⟨0, [], 0⟩ ⟨1, []⟩ ⟨[]⟩
      (fun _ => 0) = .error .linAlgError := by
    simp [DefaultKinematicFitCostFunction.init, np_linalg_inv, h1, h0]
  refine ⟨hinit, ?_⟩
  rintro ⟨msg, cov, hdiag⟩
  rw [hinit] at hdiag
  simp at hdiag

/-- C3, amended: a singular tag-side covariance makes construction fail
with `ValueError("Given Covariance not invertible")` after printing the
offending covariance matrix and its eigenvalues (the carried diagnostic);
a singular lepton or X-system covariance (the earlier inversions having
succeeded) instead lets the bare `np.linalg.LinAlgError` escape, with no
such diagnostic; construction succeeds when all three covariances are
invertible. -/
theorem init_covariance_error_policy (tag_side_info : MassiveParticleKinematicInfo)
    (lepton_info : MassConstrainedParticleKinematicInfo)
    (x_system_info : MassiveParticleKinematicInfo)
    (missing_mom_info : MasslessParticleKinematicInfo) (beam : Fin 4 → ℝ) :
    (tag_side_info.covariance_matrix.det = 0 →
      DefaultKinematicFitCostFunction.init tag_side_info lepton_info x_system_info
          missing_mom_info beam
        = .error (.valueErrorWithCovarianceDiagnostic "Given Covariance not invertible"
            tag_side_info.covariance_matrix))
    ∧ (tag_side_info.covariance_matrix.det ≠ 0 →
        lepton_info.covariance_matrix.det = 0 →
        DefaultKinematicFitCostFunction.init tag_side_info lepton_info x_system_info
            missing_mom_info beam = .error .linAlgError)
    ∧ (tag_side_info.covariance_matrix.det ≠ 0 →
        lepton_info.covariance_matrix.det ≠ 0 →
        x_system_info.covariance_matrix.det = 0 →
        DefaultKinematicFitCostFunction.init tag_side_info lepton_info x_system_info
            missing_mom_info beam = .error .linAlgError)
    ∧ (tag_side_info.covariance_matrix.det ≠ 0 →
        lepton_info.covariance_matrix.det ≠ 0 →
        x_system_info.covariance_matrix.det ≠ 0 →
        ∃ cf, DefaultKinematicFitCostFunction.init tag_side_info lepton_info x_system_info
            missing_mom_info beam = .ok cf) := by
  refine ⟨fun h1 => ?_, fun h1 h2 => ?_, fun h1 h2 h3 => ?_, fun h1 h2 h3 => ?_⟩
  · simp [DefaultKinematicFitCostFunction.init, np_linalg_inv, h1]
  · simp [DefaultKinematicFitCostFunction.init, np_linalg_inv, h1, h2]
  · simp [DefaultKinematicFitCostFunction.init, np_linalg_inv, h1, h2, h3]
  · refine ⟨⟨tag_side_info.four_momentum, tag_side_info.covariance_matrix,
      tag_side_info.covariance_matrix.det⁻¹ • tag_side_info.covariance_matrix.adjugate,
      lepton_info.three_momentum, lepton_info.mass, lepton_info.covariance_matrix,
      lepton_info.covariance_matrix.det⁻¹ • lepton_info.covariance_matrix.adjugate,
      x_system_info.four_momentum, x_system_info.covariance_matrix,
      x_system_info.covariance_matrix.det⁻¹ • x_system_info.covariance_matrix.adjugate,
      missing_mom_info.three_momentum, beam⟩, ?_⟩
    simp [DefaultKinematicFitCostFunction.init, np_linalg_inv, h1, h2, h3]

/-- Witness for `init_covariance_error_policy`, exercising each branch on
concrete covariance matrices (identity = invertible, zero = singular). -/
theorem init_covariance_error_policy_witness :
    DefaultKinematicFitCostFunction.init ⟨0, []⟩ ⟨1, [], 0⟩ ⟨1, []⟩ ⟨[]⟩ (fun _ => 0)
        = .error (.valueErrorWithCovarianceDiagnostic "Given Covariance not invertible" 0)
    ∧ DefaultKinematicFitCostFunction.init ⟨1, []⟩ ⟨0, [], 0⟩ ⟨1, []⟩ ⟨[]⟩ (fun _ => 0)
        = .error .linAlgError
    ∧ DefaultKinematicFitCostFunction.init ⟨1, []⟩ ⟨1, [], 0⟩ ⟨0, []⟩ ⟨[]⟩ (fun _ => 0)
        = .error .linAlgError
    ∧ ∃ cf, DefaultKinematicFitCostFunction.init ⟨1, []⟩ ⟨1, [], 0⟩ ⟨1, []⟩ ⟨[]⟩ (fun _ => 0)
        = .ok cf := by
  have hz4 : (0 : Matrix (Fin 4) (Fin 4) ℚ).det = 0 := Matrix.det_zero ⟨0⟩
  have hz3 : (0 : Matrix (Fin 3) (Fin 3) ℚ).det = 0 := Matrix.det_zero ⟨0⟩
  have ho4 : (1 : Matrix (Fin 4) (Fin 4) ℚ).det ≠ 0 := by
    rw [Matrix.det_one]
    norm_num
  have ho3 : (1 : Matrix (Fin 3) (Fin 3) ℚ).det ≠ 0 := by
    rw [Matrix.det_one]
    norm_num
  refine ⟨?_, ?_, ?_, ?_⟩
  · exact (init_covariance_error_policy ⟨0, []⟩ ⟨1, [], 0⟩ ⟨1, []⟩ ⟨[]⟩ (fun _ => 0)).1 hz4
  · exact (init_covariance_error_policy ⟨1, []⟩ ⟨0, [], 0⟩ ⟨1, []⟩ ⟨[]⟩ (fun _ => 0)).2.1 ho4 hz3
  · exact (init_covariance_error_policy ⟨1, []⟩ ⟨1, [], 0⟩ ⟨0, []⟩ ⟨[]⟩ (fun _ => 0)).2.2.1 ho4 ho3 hz4
  · exact (init_covariance_error_policy ⟨1, []⟩ ⟨1, [], 0⟩ ⟨1, []⟩ ⟨[]⟩ (fun _ => 0)).2.2.2 ho4 ho3 ho4

/-! ### C4 -/

/-- C4: the `constraints` property returns exactly six constraint dicts,
in order: the x-, y- and z-momentum conservation residuals tagged `"eq"`,
the energy-conservation residual tagged `"eq"`, the tag-vs-signal
mass-equality residual tagged `"eq"`, and the X-system invariant
mass-squared tagged `"ineq"`; the absolute mass-pinning methods
`tag_mass_cons` and `sig_mass_cons` appear nowhere in the list. -/
theorem constraints_are_refined_policy (cf : DefaultKinematicFitCostFunction) :
    DefaultKinematicFitCostFunction.constraints cf =
      [ ⟨.eq, .x_mom_cons⟩, ⟨.eq, .y_mom_cons⟩, ⟨.eq, .z_mom_cons⟩
      , ⟨.eq, .E_cons⟩, ⟨.eq, .eq_mass_cons⟩, ⟨.ineq, .x_mass_cons⟩ ]
    ∧ ∀ c ∈ DefaultKinematicFitCostFunction.constraints cf,
        c.cfun ≠ ConstraintName.tag_mass_cons ∧ c.cfun ≠ ConstraintName.sig_mass_cons := by
  refine ⟨rfl, ?_⟩
  intro c hc
  simp only [DefaultKinematicFitCostFunction.constraints, List.mem_cons,
    List.not_mem_nil, or_false] at hc
  rcases hc with h | h | h | h | h | h <;> subst h <;> exact ⟨by decide, by decide⟩

/-- Witness for `constraints_are_refined_policy` at a concrete cost
function and the first returned constraint. -/
theorem constraints_are_refined_policy_witness :
    (⟨.eq, .x_mom_cons⟩ : SlsqpConstraint) ∈
      DefaultKinematicFitCostFunction.constraints
        ⟨[], 1, 1, [], 0, 1, 1, [], 1, 1, [], fun _ => 0⟩
    ∧ (⟨.eq, .x_mom_cons⟩ : SlsqpConstraint).cfun ≠ ConstraintName.tag_mass_cons
    ∧ (⟨.eq, .x_mom_cons⟩ : SlsqpConstraint).cfun ≠ ConstraintName.sig_mass_cons := by
  have hmem : (⟨.eq, .x_mom_cons⟩ : SlsqpConstraint) ∈
      DefaultKinematicFitCostFunction.constraints
        ⟨[], 1, 1, [], 0, 1, 1, [], 1, 1, [], fun _ => 0⟩ := by
    simp [DefaultKinematicFitCostFunction.constraints]
  exact ⟨hmem,
    (constraints_are_refined_policy ⟨[], 1, 1, [], 0, 1, 1, [], 1, 1, [], fun _ => 0⟩).2
      ⟨.eq, .x_mom_cons⟩ hmem⟩

/-! ### C5 -/

/-- C5: `initial_params` returns the concatenation of the measured
tag-side four-momentum, the measured X-system four-momentum, the measured
lepton three-momentum and the missing-momentum estimate, succeeding
exactly when the assembled length is 14 and failing with a `ValueError`
exactly when it is not; with the in-contract lengths 4, 4, 3, 3 it
returns the 14-element vector. -/
theorem initial_params_assembly (cf : DefaultKinematicFitCostFunction) :
    (cf.initial_params = .ok (cf.tag_side_measured_momentum ++ cf.x_system_measured_momentum
        ++ cf.lepton_measured_three_momentum ++ cf.neutrino_measured_three_momentum)
      ↔ (cf.tag_side_measured_momentum ++ cf.x_system_measured_momentum
        ++ cf.lepton_measured_three_momentum ++ cf.neutrino_measured_three_momentum).length = 14)
    ∧ ((∃ msg, cf.initial_params = .error (.valueError msg))
      ↔ (cf.tag_side_measured_momentum ++ cf.x_system_measured_momentum
        ++ cf.lepton_measured_three_momentum ++ cf.neutrino_measured_three_momentum).length ≠ 14)
    ∧ (cf.tag_side_measured_momentum.length = 4 → cf.x_system_measured_momentum.length = 4 →
        cf.lepton_measured_three_momentum.length = 3 →
        cf.neutrino_measured_three_momentum.length = 3 →
        cf.initial_params = .ok (cf.tag_side_measured_momentum ++ cf.x_system_measured_momentum
          ++ cf.lepton_measured_three_momentum ++ cf.neutrino_measured_three_momentum)) := by
  have hn : n_fit_params = 14 := rfl
  by_cases h : (cf.tag_side_measured_momentum ++ cf.x_system_measured_momentum
      ++ cf.lepton_measured_three_momentum ++ cf.neutrino_measured_three_momentum).length = 14
  · have hok : cf.initial_params = .ok (cf.tag_side_measured_momentum
        ++ cf.x_system_measured_momentum ++ cf.lepton_measured_three_momentum
        ++ cf.neutrino_measured_three_momentum) := by
      simp only [DefaultKinematicFitCostFunction.initial_params, hn]
      rw [if_neg (not_not_intro h)]
    refine ⟨?_, ?_, fun _ _ _ _ => hok⟩
    · simp only [List.length_append] at h
      simp [hok]
      omega
    · simp only [List.length_append] at h
      simp [hok]
      omega
  · have herr : cf.initial_params = .error (.valueError "Number of initial parameters not compatible with number of fit paramters! Check initialization of the cost function!") := by
      simp only [DefaultKinematicFitCostFunction.initial_params, hn]
      rw [if_pos h]
    refine ⟨?_, ⟨fun _ => h, fun _ => ⟨_, herr⟩⟩, ?_⟩
    · simp only [List.length_append] at h
      simp [herr]
      omega
    · intro h4 h4x h3l h3n
      exfalso
      apply h
      simp [h4, h4x, h3l, h3n]

/-- Witness for `initial_params_assembly`: a cost function with momenta of
the in-contract lengths yields the concatenated 14-vector, one with a
3-element tag-side momentum fails with a `ValueError`. -/
theorem initial_params_assembly_witness :
    DefaultKinematicFitCostFunction.initial_params
        ⟨[1, 2, 3, 4], 1, 1, [9, 10, 11], 0, 1, 1, [5, 6, 7, 8], 1, 1, [12, 13, 14], fun _ => 0⟩
      = .ok ([1, 2, 3, 4] ++ [5, 6, 7, 8] ++ [9, 10, 11] ++ [12, 13, 14])
    ∧ ∃ msg, DefaultKinematicFitCostFunction.initial_params
        ⟨[1, 2, 3], 1, 1, [9, 10, 11], 0, 1, 1, [5, 6, 7, 8], 1, 1, [12, 13, 14], fun _ => 0⟩
      = .error (.valueError msg) := by
  constructor
  · exact (initial_params_assembly
      ⟨[1, 2, 3, 4], 1, 1, [9, 10, 11], 0, 1, 1, [5, 6, 7, 8], 1, 1, [12, 13, 14],
        fun _ => 0⟩).2.2 rfl rfl rfl rfl
  · exact (initial_params_assembly
      ⟨[1, 2, 3], 1, 1, [9, 10, 11], 0, 1, 1, [5, 6, 7, 8], 1, 1, [12, 13, 14],
        fun _ => 0⟩).2.1.mpr (by norm_num)

/-! ### C6 -/

theorem validate_slsqp_settings_error_of_invalid (new_settings : List (String × PyValue))
    (k : String) (v : PyValue) (hmem : (k, v) ∈ new_settings)
    (hbad : valid_slsqp_settings k = none
      ∨ ∃ t, valid_slsqp_settings k = some t ∧ PyValue.typeOf v ≠ t) :
    ∃ msg, validate_slsqp_settings new_settings = .error (.valueError msg) := by
  induction new_settings with
  | nil => simp at hmem
  | cons hd rest ih =>
    obtain ⟨k', v'⟩ := hd
    rw [List.mem_cons] at hmem
    cases hval : valid_slsqp_settings k' with
    | none =>
      exact ⟨"Unknown SLSQP setting " ++ k' ++ ".", by simp [validate_slsqp_settings, hval]⟩
    | some t =>
      by_cases htype : PyValue.typeOf v' = t
      · have hrest : (k, v) ∈ rest := by
          rcases hmem with heq | hmem'
          · exfalso
            obtain ⟨hk, hv⟩ := Prod.mk.injEq .. ▸ heq
            subst hk
            subst hv
            rcases hbad with hnone | ⟨t', ht', hty'⟩
            · rw [hval] at hnone
              exact Option.noConfusion hnone
            · rw [hval] at ht'
              exact hty' (htype.trans (Option.some.injEq .. ▸ ht'))
          · exact hmem'
        obtain ⟨msg, hmsg⟩ := ih hrest
        exact ⟨msg, by simp [validate_slsqp_settings, hval, htype, hmsg]⟩
      · exact ⟨"SLSQP setting " ++ k' ++ " has to be of type",
          by simp [validate_slsqp_settings, hval, htype]⟩

theorem validate_slsqp_settings_unknown_key (new_settings : List (String × PyValue))
    (k : String) (v : PyValue) (hmem : (k, v) ∈ new_settings)
    (hunk : valid_slsqp_settings k = none)
    (hothers : ∀ k' v', (k', v') ∈ new_settings → (k', v') ≠ (k, v) →
      ∃ t, valid_slsqp_settings k' = some t ∧ PyValue.typeOf v' = t) :
    validate_slsqp_settings new_settings
      = .error (.valueError ("Unknown SLSQP setting " ++ k ++ ".")) := by
  induction new_settings with
  | nil => simp at hmem
  | cons hd rest ih =>
    obtain ⟨k', v'⟩ := hd
    by_cases heq : (k', v') = (k, v)
    · obtain ⟨hk, hv⟩ := Prod.mk.injEq .. ▸ heq
      subst hk
      subst hv
      simp [validate_slsqp_settings, hunk]
    · obtain ⟨t, ht, htype⟩ := hothers k' v' (List.mem_cons_self _ _) heq
      have hrest : (k, v) ∈ rest := by
        rcases List.mem_cons.mp hmem with h | h
        · exact absurd h.symm heq
        · exact h
      have ihr := ih hrest (fun k'' v'' hm hne => hothers k'' v'' (List.mem_cons_of_mem _ hm) hne)
      simp [validate_slsqp_settings, ht, htype, ihr]

theorem validate_slsqp_settings_all_valid (new_settings : List (String × PyValue))
    (hall : ∀ k v, (k, v) ∈ new_settings →
      ∃ t, valid_slsqp_settings k = some t ∧ PyValue.typeOf v = t) :
    validate_slsqp_settings new_settings = .ok () := by
  induction new_settings with
  | nil => rfl
  | cons hd rest ih =>
    obtain ⟨k, v⟩ := hd
    obtain ⟨t, ht, htype⟩ := hall k v (List.mem_cons_self _ _)
    have ihr := ih (fun k' v' hm => hall k' v' (List.mem_cons_of_mem _ hm))
    simp [validate_slsqp_settings, ht, htype, ihr]

/-- C6: validation of a settings mapping happens at assignment time in the
setter: a mapping containing a key outside the schema
`{ftol, eps, disp, maxiter}` is rejected with a `ValueError` (and when the
remaining entries are valid, the error names the unknown key); a mapping
in which a known key carries a value of the wrong runtime type is rejected
with a `ValueError`; a mapping whose every key is known and correctly
typed is accepted and stored wholesale. -/
theorem slsqp_settings_schema_validation (new_settings : List (String × PyValue)) :
    (∀ k v, (k, v) ∈ new_settings → valid_slsqp_settings k = none →
      (∃ msg, set_scipy_slsqp_settings new_settings = .error (.valueError msg))
      ∧ ((∀ k' v', (k', v') ∈ new_settings → (k', v') ≠ (k, v) →
            ∃ t, valid_slsqp_settings k' = some t ∧ PyValue.typeOf v' = t) →
          set_scipy_slsqp_settings new_settings
            = .error (.valueError ("Unknown SLSQP setting " ++ k ++ "."))))
    ∧ (∀ k v t, (k, v) ∈ new_settings → valid_slsqp_settings k = some t →
        PyValue.typeOf v ≠ t →
        ∃ msg, set_scipy_slsqp_settings new_settings = .error (.valueError msg))
    ∧ ((∀ k v, (k, v) ∈ new_settings →
          ∃ t, valid_slsqp_settings k = some t ∧ PyValue.typeOf v = t) →
        set_scipy_slsqp_settings new_settings = .ok new_settings) := by
  refine ⟨fun k v hmem hunk => ⟨?_, fun hothers => ?_⟩,
    fun k v t hmem ht htype => ?_, fun hall => ?_⟩
  · obtain ⟨msg, hmsg⟩ :=
      validate_slsqp_settings_error_of_invalid new_settings k v hmem (Or.inl hunk)
    exact ⟨msg, by simp [set_scipy_slsqp_settings, hmsg]⟩
  · have h := validate_slsqp_settings_unknown_key new_settings k v hmem hunk hothers
    simp [set_scipy_slsqp_settings, h]
  · obtain ⟨msg, hmsg⟩ := validate_slsqp_settings_error_of_invalid new_settings k v hmem
      (Or.inr ⟨t, ht, htype⟩)
    exact ⟨msg, by simp [set_scipy_slsqp_settings, hmsg]⟩
  · simp [set_scipy_slsqp_settings, validate_slsqp_settings_all_valid new_settings hall]

/-- Witness for `slsqp_settings_schema_validation`: the mapping
`{"bogus": 1}` is rejected naming the unknown key, `{"maxiter": 1.5}` is
rejected for the wrong type, and `{"ftol": 0.01, "disp": True}` is
accepted and stored. -/
theorem slsqp_settings_schema_validation_witness :
    set_scipy_slsqp_settings [("bogus", .int 1)]
      = .error (.valueError ("Unknown SLSQP setting " ++ "bogus" ++ "."))
    ∧ (∃ msg, set_scipy_slsqp_settings [("maxiter", .float (3 / 2))]
        = .error (.valueError msg))
    ∧ set_scipy_slsqp_settings [("ftol", .float (1 / 100)), ("disp", .bool true)]
      = .ok [("ftol", .float (1 / 100)), ("disp", .bool true)] := by
  refine ⟨?_, ?_, ?_⟩
  · refine ((slsqp_settings_schema_validation [("bogus", .int 1)]).1 "bogus" (.int 1)
      (by simp) (by decide)).2 ?_
    intro k' v' hm hne
    exact absurd (List.mem_singleton.mp hm) hne
  · exact (slsqp_settings_schema_validation [("maxiter", .float (3 / 2))]).2.1
      "maxiter" (.float (3 / 2)) .int (by simp) (by decide) (by decide)
  · refine (slsqp_settings_schema_validation
      [("ftol", .float (1 / 100)), ("disp", .bool true)]).2.2 ?_
    intro k v hm
    simp only [List.mem_cons, List.not_mem_nil, or_false] at hm
    rcases hm with h | h
    · obtain ⟨hk, hv⟩ := Prod.mk.injEq .. ▸ h
      subst hk
      subst hv
      exact ⟨.float, rfl, rfl⟩
    · obtain ⟨hk, hv⟩ := Prod.mk.injEq .. ▸ h
      subst hk
      subst hv
      exact ⟨.bool, rfl, rfl⟩

/-! ### C10 -/

/-- C10: the settings setter is atomic on error: the whole supplied
mapping is validated first, and a rejected assignment (unknown key or
wrong-typed value) leaves the stored settings unchanged, while a
validated one replaces them wholesale. -/
theorem settings_setter_atomic_on_error (current new_settings : List (String × PyValue)) :
    ((∃ e, validate_slsqp_settings new_settings = .error e) →
      scipy_slsqp_settings_after current new_settings = current)
    ∧ (validate_slsqp_settings new_settings = .ok () →
      scipy_slsqp_settings_after current new_settings = new_settings) := by
  constructor
  · rintro ⟨e, he⟩
    simp [scipy_slsqp_settings_after, he]
  · intro h
    simp [scipy_slsqp_settings_after, h]

/-- Witness for `settings_setter_atomic_on_error`: rejecting
`{"bogus": True}` leaves the default settings in place. -/
theorem settings_setter_atomic_on_error_witness :
    scipy_slsqp_settings_after default_scipy_slsqp_settings [("bogus", .bool true)]
      = default_scipy_slsqp_settings :=
  (settings_setter_atomic_on_error default_scipy_slsqp_settings [("bogus", .bool true)]).1
    ⟨.valueError ("Unknown SLSQP setting " ++ "bogus" ++ "."), rfl⟩

/-! ### C8 -/

/-- C8: for every dimension `N ≥ 2` and one-dimensional inputs of the
matching lengths, `create_symmetric_matrix` succeeds and returns a matrix
`M` with `M[i][j] = M[j][i]` for all `i, j` and `M[i][i]` equal to the
`i`-th diagonal input. -/
theorem create_symmetric_matrix_symmetric_diag (N : ℕ) (hN : 2 ≤ N) (d od : List ℚ)
    (hd : d.length = N) (hod : od.length = number_of_off_diagonal_values N) :
    ∃ M, create_symmetric_matrix N (NpArr.vec d) (NpArr.vec od) = .ok M
      ∧ (∀ i j, M i j = M j i) ∧ ∀ i : Fin N, M i i = d.getD i.val 0 := by
  refine ⟨fun i j =>
      if i = j then d.getD i.val 0
      else if i.val < j.val then od.getD (triu_index N i.val j.val) 0
      else od.getD (triu_index N j.val i.val) 0, ?_, ?_, ?_⟩
  · simp [create_symmetric_matrix, NpArr.vec, NpArr.ndim, NpArr.size, hd, hod]
  · intro i j
    by_cases hij : i = j
    · subst hij
      rfl
    · have hji : ¬ j = i := fun h => hij h.symm
      rcases Nat.lt_trichotomy i.val j.val with hlt | heqv | hgt
      · simp [hij, hji, hlt, Nat.lt_asymm hlt]
      · exact absurd (Fin.ext heqv) hij
      · simp [hij, hji, hgt, Nat.lt_asymm hgt]
  · intro i
    simp

/-- Witness for `create_symmetric_matrix_symmetric_diag` at the test data
`N = 3`, diagonal `[1, 2, 3]`, off-diagonal `[4, 5, 6]`. -/
theorem create_symmetric_matrix_symmetric_diag_witness :
    2 ≤ 3
    ∧ ∃ M, create_symmetric_matrix 3 (NpArr.vec [1, 2, 3]) (NpArr.vec [4, 5, 6]) = .ok M
      ∧ (∀ i j, M i j = M j i) ∧ ∀ i : Fin 3, M i i = [1, 2, 3].getD i.val 0 :=
  ⟨by norm_num,
    create_symmetric_matrix_symmetric_diag 3 (by norm_num) [1, 2, 3] [4, 5, 6] rfl rfl⟩

/-! ### C9 -/

/-- C9: `create_symmetric_matrix` fails with a `ValueError` whenever an
input array is not one-dimensional, or the diagonal size differs from the
dimension, or the off-diagonal size differs from
`number_of_off_diagonal_values`; and the off-diagonal count is 1, 3, 6
for dimensions 2, 3, 4. -/
theorem create_symmetric_matrix_validation :
    (∀ (N : ℕ) (dv odv : NpArr),
      dv.ndim ≠ 1 ∨ odv.ndim ≠ 1 ∨ dv.size ≠ N
        ∨ odv.size ≠ number_of_off_diagonal_values N →
      ∃ msg, create_symmetric_matrix N dv odv = .error (.valueError msg))
    ∧ number_of_off_diagonal_values 2 = 1
    ∧ number_of_off_diagonal_values 3 = 3
    ∧ number_of_off_diagonal_values 4 = 6 := by
  refine ⟨?_, rfl, rfl, rfl⟩
  intro N dv odv h
  unfold create_symmetric_matrix
  by_cases h1 : dv.ndim ≠ 1 ∨ odv.ndim ≠ 1
  · rw [if_pos h1]
    exact ⟨_, rfl⟩
  · rw [if_neg h1]
    by_cases h2 : dv.size ≠ N
    · rw [if_pos h2]
      exact ⟨_, rfl⟩
    · rw [if_neg h2]
      have h3 : odv.size ≠ number_of_off_diagonal_values N := by tauto
      rw [if_pos h3]
      exact ⟨_, rfl⟩

/-- Witness for `create_symmetric_matrix_validation`: a 3-element diagonal
for dimension 4 is rejected. -/
theorem create_symmetric_matrix_validation_witness :
    (NpArr.vec ([1, 2, 3] : List ℚ)).size ≠ 4
    ∧ ∃ msg, create_symmetric_matrix 4 (NpArr.vec [1, 2, 3]) (NpArr.vec [4, 5, 6])
        = .error (.valueError msg) :=
  ⟨by decide, create_symmetric_matrix_validation.1 4 (NpArr.vec [1, 2, 3])
    (NpArr.vec [4, 5, 6]) (Or.inr (Or.inr (Or.inl (by decide))))⟩

/-! ### C7 -/

/-- C7, amended: at true noiseless momenta — exact momentum and energy
conservation against the beam, tag-side and X-system energy entries
consistent with their three-momenta and the B-meson mass, *and* (the
amendment) the signal-side invariant mass squared also equal to the
squared B-meson mass — every equality constraint in the returned list
evaluates to exactly 0 and the inequality constraint evaluates to a value
`≥ 0`. -/
theorem constraints_vanish_at_true_momenta (cf : DefaultKinematicFitCostFunction)
    (x : Fin 14 → ℝ)
    (h1 : x 0 + x 4 + x 8 + x 11 = cf.beam_four_momentum 0)
    (h2 : x 1 + x 5 + x 9 + x 12 = cf.beam_four_momentum 1)
    (h3 : x 2 + x 6 + x 10 + x 13 = cf.beam_four_momentum 2)
    (h4 : x 3 + x 7 + _lepton_energy x cf.lepton_mass + _neutrino_energy x
      = cf.beam_four_momentum 3)
    (h5 : x 3 = Real.sqrt ((x 0) ^ 2 + (x 1) ^ 2 + (x 2) ^ 2 + AVG_B_MASS ^ 2))
    (h6 : x 7 = Real.sqrt ((x 4) ^ 2 + (x 5) ^ 2 + (x 6) ^ 2 + AVG_B_MASS ^ 2))
    (h7 : _sig_mass_sq x cf.lepton_mass = AVG_B_MASS ^ 2) :
    ∀ c ∈ DefaultKinematicFitCostFunction.constraints cf,
      (c.ctype = .eq →
        DefaultKinematicFitCostFunction.ConstraintName.eval c.cfun cf x = 0)
      ∧ (c.ctype = .ineq →
        0 ≤ DefaultKinematicFitCostFunction.ConstraintName.eval c.cfun cf x) := by
  have htag : _tag_mass_sq x = AVG_B_MASS ^ 2 := by
    unfold _tag_mass_sq
    rw [h5, Real.sq_sqrt (by positivity)]
    ring
  have hxm : _x_mass_function x = AVG_B_MASS ^ 2 := by
    unfold _x_mass_function
    rw [h6, Real.sq_sqrt (by positivity)]
    ring
  intro c hc
  simp only [DefaultKinematicFitCostFunction.constraints, List.mem_cons,
    List.not_mem_nil, or_false] at hc
  rcases hc with h | h | h | h | h | h <;> subst h
  · refine ⟨fun _ => ?_, fun habs => absurd habs (by decide)⟩
    show _x_mom_function x cf.beam_four_momentum = 0
    unfold _x_mom_function
    rw [h1]
    exact sub_self _
  · refine ⟨fun _ => ?_, fun habs => absurd habs (by decide)⟩
    show _y_mom_function x cf.beam_four_momentum = 0
    unfold _y_mom_function
    rw [h2]
    exact sub_self _
  · refine ⟨fun _ => ?_, fun habs => absurd habs (by decide)⟩
    show _z_mom_function x cf.beam_four_momentum = 0
    unfold _z_mom_function
    rw [h3]
    exact sub_self _
  · refine ⟨fun _ => ?_, fun habs => absurd habs (by decide)⟩
    show _E_function x cf.beam_four_momentum cf.lepton_mass = 0
    unfold _E_function
    rw [h4]
    exact sub_self _
  · refine ⟨fun _ => ?_, fun habs => absurd habs (by decide)⟩
    show _eq_mass_function x cf.lepton_mass = 0
    unfold _eq_mass_function
    rw [htag, h7]
    exact sub_self _
  · refine ⟨fun habs => absurd habs (by decide), fun _ => ?_⟩
    show 0 ≤ _x_mass_function x
    rw [hxm]
    positivity

/-- Witness for `constraints_vanish_at_true_momenta` at the concrete
exactly-conserving configuration `xTrueExact` / `cfTrueExact`: the
mass-equality constraint vanishes and the X-system mass-squared
inequality constraint is nonnegative there. -/
theorem constraints_vanish_at_true_momenta_witness :
    DefaultKinematicFitCostFunction.ConstraintName.eval .eq_mass_cons
      cfTrueExact xTrueExact = 0
    ∧ 0 ≤ DefaultKinematicFitCostFunction.ConstraintName.eval .x_mass_cons
      cfTrueExact xTrueExact := by
  have hmB : (0:ℝ) ≤ AVG_B_MASS := by norm_num [AVG_B_MASS]
  have hmain := constraints_vanish_at_true_momenta cfTrueExact xTrueExact
    (by simp [xTrueExact, cfTrueExact, beamTrueExact])
    (by simp [xTrueExact, cfTrueExact, beamTrueExact])
    (by simp [xTrueExact, cfTrueExact, beamTrueExact])
    (by
      simp [xTrueExact, cfTrueExact, beamTrueExact, _lepton_energy, _neutrino_energy,
        Real.sqrt_zero]
      ring)
    (by simp [xTrueExact, Real.sqrt_sq hmB])
    (by simp [xTrueExact, Real.sqrt_sq hmB])
    (by simp [xTrueExact, cfTrueExact, _sig_mass_sq, _sig_x_mom, _sig_y_mom, _sig_z_mom,
      _lepton_energy, _neutrino_energy, Real.sqrt_zero])
  exact ⟨(hmain ⟨.eq, .eq_mass_cons⟩
      (by simp [DefaultKinematicFitCostFunction.constraints])).1 rfl,
    (hmain ⟨.ineq, .x_mass_cons⟩
      (by simp [DefaultKinematicFitCostFunction.constraints])).2 rfl⟩

/-- C7, counterexample: at `xTrueClaim` the literally-claimed hypotheses
all hold — exact momentum and energy conservation, and tag-side *and*
X-system energy entries consistent with their three-momenta and the
B-meson mass — yet the tag-vs-signal mass-equality constraint (an
equality constraint in the returned list) evaluates to `-8`, not `0`:
the claimed conditions do not pin the signal-side invariant mass to the
B-meson mass. -/
theorem equal_mass_constraint_nonzero_at_claimed_truth :
    (xTrueClaim 0 + xTrueClaim 4 + xTrueClaim 8 + xTrueClaim 11
      = cfTrueClaim.beam_four_momentum 0)
    ∧ (xTrueClaim 1 + xTrueClaim 5 + xTrueClaim 9 + xTrueClaim 12
      = cfTrueClaim.beam_four_momentum 1)
    ∧ (xTrueClaim 2 + xTrueClaim 6 + xTrueClaim 10 + xTrueClaim 13
      = cfTrueClaim.beam_four_momentum 2)
    ∧ (xTrueClaim 3 + xTrueClaim 7 + _lepton_energy xTrueClaim cfTrueClaim.lepton_mass
        + _neutrino_energy xTrueClaim = cfTrueClaim.beam_four_momentum 3)
    ∧ (xTrueClaim 3 = Real.sqrt ((xTrueClaim 0) ^ 2 + (xTrueClaim 1) ^ 2
        + (xTrueClaim 2) ^ 2 + AVG_B_MASS ^ 2))
    ∧ (xTrueClaim 7 = Real.sqrt ((xTrueClaim 4) ^ 2 + (xTrueClaim 5) ^ 2
        + (xTrueClaim 6) ^ 2 + AVG_B_MASS ^ 2))
    ∧ (⟨.eq, .eq_mass_cons⟩ : SlsqpConstraint)
        ∈ DefaultKinematicFitCostFunction.constraints cfTrueClaim
    ∧ DefaultKinematicFitCostFunction.ConstraintName.eval .eq_mass_cons
        cfTrueClaim xTrueClaim ≠ 0 := by
  have hmB : (0:ℝ) ≤ AVG_B_MASS := by norm_num [AVG_B_MASS]
  have hlarg : (xTrueClaim 8) ^ 2 + (xTrueClaim 9) ^ 2 + (xTrueClaim 10) ^ 2
      + (cfTrueClaim.lepton_mass) ^ 2 = 5 ^ 2 := by
    simp [xTrueClaim, cfTrueClaim]
    norm_num
  have hEl : _lepton_energy xTrueClaim cfTrueClaim.lepton_mass = 5 := by
    unfold _lepton_energy
    rw [hlarg, Real.sqrt_sq (by norm_num)]
  have hnarg : (xTrueClaim 11) ^ 2 + (xTrueClaim 12) ^ 2 + (xTrueClaim 13) ^ 2
      = 3 ^ 2 := by
    simp [xTrueClaim]
  have hEnu : _neutrino_energy xTrueClaim = 3 := by
    unfold _neutrino_energy
    rw [hnarg, Real.sqrt_sq (by norm_num)]
  have htag : _tag_mass_sq xTrueClaim = AVG_B_MASS ^ 2 := by
    simp [_tag_mass_sq, xTrueClaim]
  have hsig : _sig_mass_sq xTrueClaim cfTrueClaim.lepton_mass = (AVG_B_MASS + 8) ^ 2 := by
    unfold _sig_mass_sq
    rw [hEl, hEnu]
    simp [_sig_x_mom, _sig_y_mom, _sig_z_mom, xTrueClaim]
    ring
  refine ⟨?_, ?_, ?_, ?_, ?_, ?_, ?_, ?_⟩
  · simp [xTrueClaim, cfTrueClaim, beamTrueClaim]
  · simp [xTrueClaim, cfTrueClaim, beamTrueClaim]
  · simp [xTrueClaim, cfTrueClaim, beamTrueClaim]
  · rw [hEl, hEnu]
    simp [xTrueClaim, cfTrueClaim, beamTrueClaim]
    ring
  · simp [xTrueClaim, Real.sqrt_sq hmB]
  · simp [xTrueClaim, Real.sqrt_sq hmB]
  · simp [DefaultKinematicFitCostFunction.constraints]
  · show _eq_mass_function xTrueClaim cfTrueClaim.lepton_mass ≠ 0
    unfold _eq_mass_function
    rw [htag, hsig, Real.sqrt_sq hmB, Real.sqrt_sq (by linarith)]
    intro hcontr
    linarith
